import Mathlib

/-!
Shallow embedding of the Deep-Search research pipeline
(`src/agents.py`, `src/api.py`) and proofs about its claims.

External collaborators (the hosted LLM backend, the LinkUp search provider,
the crewai sequential executor, the process environment) are modelled as
explicit oracle parameters; everything the repository itself does is
translated directly from the source.  Machine-level detail that the claims
do not touch (pydantic validation, HTTP parsing) is not modelled.
-/

namespace DeepSearch

/-- The process environment (`os.getenv`). -/
structure OsEnv where
  getenv : String → Option String

/-- Identifiers of the tools the repository defines; the only one is the
LinkUp search tool (`LinkUpSearchTool`, src/agents.py lines 62-103). -/
inductive Tool where
  | linkupSearch
deriving DecidableEq, Repr

/-- The LLM client configuration built by `get_llm_client`
(`crewai.LLM(model=..., verbose=..., temperature=..., api_key=...)`).
The sampling temperature `0.0` is the exact rational 0. -/
structure LLM where
  model : String
  verbose : Bool
  temperature : ℚ
  api_key : Option String
deriving DecidableEq

/-- Translation of `get_llm_client` (src/agents.py lines 33-45).  Besides
the client it returns the list of environment variables read during the
call (`os.getenv("GEMINI_API_KEY")` is evaluated on every invocation). -/
def get_llm_client (os : OsEnv) : LLM × List String :=
  ({ model := "gemini/gemini-2.5-flash",
     verbose := true,
     temperature := 0,
     api_key := os.getenv "GEMINI_API_KEY" },
   ["GEMINI_API_KEY"])

/-- Translation of `crewai.Agent` as used by the source: a declarative
record of role, goal, backstory, verbosity, delegation policy, tool set and
LLM binding. -/
structure Agent where
  role : String
  goal : String
  backstory : String
  verbose : Bool
  allow_delegation : Bool
  tools : List Tool
  llm : LLM
deriving DecidableEq

/-- Translation of `crewai.Task` as used by the source.  In Python,
`context` is a list of upstream `Task` objects; in this embedding upstream
tasks are referenced by their index in the crew's task list
(search = 0, analysis = 1, writing = 2).  A task constructed without a
`context` argument (the search task) gets the empty list. -/
structure Task where
  description : String
  agent : Agent
  expected_output : String
  context : List Nat
  tools : List Tool
deriving DecidableEq

/-- Translation of `crewai.Process`; the source only uses `sequential`. -/
inductive Process where
  | sequential
deriving DecidableEq, Repr

/-- Translation of `crewai.Crew` as configured by the source. -/
structure Crew where
  agents : List Agent
  tasks : List Task
  verbose : Bool
  process : Process
deriving DecidableEq

/-- Translation of `create_research_crew` (src/agents.py lines 106-235).
All role, goal, backstory, description and expected-output strings are
transcribed verbatim from the source; `{query}` interpolation in the
f-string becomes string concatenation.  The second component is the list
of environment variables read during the call (via `get_llm_client`). -/
def create_research_crew (os : OsEnv) (query : String) : Crew × List String :=
  let linkup_search_tool : Tool := Tool.linkupSearch
  let clientReads := get_llm_client os
  let client := clientReads.1
  let web_searcher : Agent :=
    { role := "Web Searcher",
      goal :=
        "Locate the most authoritative, up-to-date, and relevant information on the web to comprehensively address the research query. "
        ++ "Ensure all findings are accompanied by accurate source links (urls) suitable for citation in a formal research report. "
        ++ "Gather data, facts, and potential visuals (charts, diagrams, images) that could support the report's sections: Executive Summary, Key Findings, Visuals, Conclusion, and References.",
      backstory :=
        "A specialist in advanced web research, skilled at constructing precise queries and evaluating the credibility of sources. "
        ++ "Responsible for assembling a robust set of resources and raw findings, with clear citations, to enable deep analysis and structured reporting. "
        ++ "Passes all findings to the 'Research Analyst' for synthesis.",
      verbose := true,
      allow_delegation := true,
      tools := [linkup_search_tool],
      llm := client }
  let research_analyst : Agent :=
    { role := "Research Analyst",
      goal :=
        "Output two sections in markdown format:\n\n## Research Report\nPrepare structured notes for each section of the Research Report: Executive Summary, Key Findings, Visuals, Conclusion, and References.\n\n## Thinking Process Summary\nFor each key finding or section, explicitly explain which sources ([n]) contributed to each conclusion and how the information was combined, contrasted, or selected. Provide reasoning for each major point, mapping citations to synthesis decisions, and avoid general statements. This output will be passed to the technical_writer for final presentation.",
      backstory :=
        "An expert at critical analysis, fact-checking, and synthesis. Skilled in transforming unstructured data into actionable insights and structured outlines. "
        ++ "Responsible for ensuring the accuracy and depth of findings, and for organizing content to facilitate clear, impactful reporting. "
        ++ "Passes an organized, section-ready synthesis to the 'Technical Writer'.",
      verbose := true,
      allow_delegation := true,
      tools := [],
      llm := client }
  let technical_writer : Agent :=
    { role := "Technical Writer",
      goal :=
        "Produce two outputs, each clearly separated by markdown headers, with the Research Report first and the Thinking Process Summary second:\n\n"
        ++ "## (1) Research Report\n"
        ++ "A well-structured Research Report in markdown format, with clear section headers and citations/source links (urls). The report must include the following sections: "
        ++ "1. Executive Summary (required): Brief overview of the research objective and outcome.\n"
        ++ "2. Key Findings (optional): Concise insights with citations, formatted as numbered references (e.g., [1], [2], etc.), matching the numbers in the References section. Each citation should use a number that corresponds to a source in the References section.\n"
        ++ "3. Visuals (optional): Only include this section if an actual visualization (such as an image, chart, diagram, or table) is generated and can be shown in the report. Do NOT include this section if only suggestions, descriptions, or hypothetical visuals are available. If no real visualization is produced, omit the Visuals section entirely.\n"
        ++ "4. Conclusion (required): Summary of key takeaways and suggested next steps.\n"
        ++ "5. References (required): A numbered list of all sources cited in the report. The numbering must correspond to the citation numbers used in the Key Findings section. Do NOT include 'Accessed [Current Date]' or any placeholder access date in the references; only include the source title, website, and URL.\n"
        ++ "Ensure each section is clearly labeled and written in a professional, accessible style.\n\n"
        ++ "## (2) Thinking Process Summary\n"
        ++ "Present the detailed Thinking Process Summary provided by the research_analyst, which for each key finding or section, explicitly explains which sources ([n]) contributed to each conclusion and how the information was combined, contrasted, or selected. The summary should provide reasoning for each major point, mapping citations to synthesis decisions, and avoid general statements. The technical_writer should not invent or reinterpret the reasoning, but simply present both outputs clearly and professionally.\n"
        ++ "1. Executive Summary (required): Brief overview of the research objective and outcome.\n"
        ++ "2. Key Findings (optional): Concise insights with citations, formatted as numbered references (e.g., [1], [2], etc.), matching the numbers in the References section. Each citation should use a number that corresponds to a source in the References section.\n"
        ++ "3. Visuals (optional): Only include this section if an actual visualization (such as an image, chart, diagram, or table) is generated and can be shown in the report. Do NOT include this section if only suggestions, descriptions, or hypothetical visuals are available. If no real visualization is produced, omit the Visuals section entirely.\n"
        ++ "4. Conclusion (required): Summary of key takeaways and suggested next steps.\n"
        ++ "5. References (required): A numbered list of all sources cited in the report. The numbering must correspond to the citation numbers used in the Key Findings section. Do NOT include 'Accessed [Current Date]' or any placeholder access date in the references; only include the source title, website, and URL.\n"
        ++ "Ensure each section is clearly labeled and written in a professional, accessible style.\n",
      backstory :=
        "An expert at structuring and communicating complex research in a clear, engaging, and accessible way. "
        ++ "Responsible for transforming the analyst's synthesis into a polished, comprehensive Research Report, with careful attention to structure, clarity, and citation.",
      verbose := true,
      allow_delegation := false,
      tools := [],
      llm := client }
  let search_task : Task :=
    { description :=
        "Conduct an exhaustive web search for authoritative, up-to-date information about: "
        ++ query ++
        ". Collect facts, data, and potential visuals (charts, diagrams, images) relevant to the research query. "
        ++ "Ensure all findings are accompanied by accurate source links (urls) suitable for citation in a formal research report.",
      agent := web_searcher,
      expected_output := "Comprehensive raw search results, including sources (urls) and any relevant visuals.",
      context := [],
      tools := [linkup_search_tool] }
  let analysis_task : Task :=
    { description :=
        "Analyze the raw search results, extract key findings, and verify facts. "
        ++ "Organize insights, suggest visuals, and compile a list of references. "
        ++ "Prepare structured notes for each section of the Research Report: Executive Summary, Key Findings, Visuals, Conclusion, and References.",
      agent := research_analyst,
      expected_output := "A section-ready synthesis with key findings, suggested visuals, and a comprehensive reference list, all with citations.",
      context := [0],
      tools := [] }
  let writing_task : Task :=
    { description :=
        "Write a well-structured Research Report in markdown format, based on the research analysis. "
        ++ "The report must include the following sections: "
        ++ "- Executive Summary (required): Brief overview of the research objective and outcome.\n"
        ++ "- Key Findings (optional): Concise insights with citations if applicable.\n"
        ++ "- Visuals (optional): Charts, diagrams, or images that support the findings.\n"
        ++ "- Conclusion (required): Summary of key takeaways and suggested next steps.\n"
        ++ "- References (required): List of sources used in the research.\n"
        ++ "Ensure each section is clearly labeled and the writing is professional, clear, and accessible.",
      agent := technical_writer,
      expected_output := "A markdown-formatted Research Report with all required sections, clear structure, and citations/source links (urls).",
      context := [1],
      tools := [] }
  ({ agents := [web_searcher, research_analyst, technical_writer],
     tasks := [search_task, analysis_task, writing_task],
     verbose := true,
     process := Process.sequential },
   clientReads.2)

/-- The agent-execution oracle: the external LLM/agent backend executes one
task, given the raw outputs of the task's context tasks, and either returns
the task's raw text output or raises (error message as `Except.error`). -/
abbrev TaskExec := Task → List String → Except String String

/-- Resolution of a task's declared context indices to the outputs of the
already-executed upstream tasks. -/
def resolveCtx (ctx : List Nat) (outs : List String) : List String :=
  ctx.filterMap (fun i => outs[i]?)

/-- Modelled from the spec: the crewai library (external collaborator,
not under src/) runs a sequential crew by executing the task list strictly
in order, making each completed task's output available as context to its
dependents, and accumulating the raw outputs. -/
def runTasks (exec : TaskExec) : List Task → List String → Except String (List String)
  | [], outs => Except.ok outs
  | t :: ts, outs =>
    match exec t (resolveCtx t.context outs) with
    | Except.error e => Except.error e
    | Except.ok o => runTasks exec ts (outs ++ [o])

/-- The result object of `crew.kickoff()`: its `raw` attribute is the final
task's raw text output. -/
structure CrewOutput where
  raw : String
  tasks_output : List String
deriving DecidableEq

/-- Modelled from the spec: `Crew.kickoff` for a sequential crew executes
the tasks in order and returns a result whose `raw` is the last task's
output; any task failure propagates as an exception. -/
def Crew.kickoff (exec : TaskExec) (c : Crew) : Except String CrewOutput :=
  match runTasks exec c.tasks [] with
  | Except.error e => Except.error e
  | Except.ok outs =>
    match outs.getLast? with
    | some r => Except.ok ⟨r, outs⟩
    | none => Except.error "crew has no tasks"

/-- The full environment a `run_research` call runs in: the process
environment, the agent-execution oracle, and fault injectors for the two
external operations performed outside task execution — the crewai
constructors invoked during `create_research_crew` (`constructErr`) and
the extraction of `result.raw` (`rawErr`); `none` means the operation
succeeds, `some e` means it raises with message `e`. -/
structure ResearchEnv where
  os : OsEnv
  constructErr : Option String
  exec : TaskExec
  rawErr : Option String

/-- The call `create_research_crew(query)` as it behaves inside
`run_research`: it may raise (external constructor failure), otherwise it
returns the crew built by `create_research_crew`. -/
def create_research_crew_e (env : ResearchEnv) (query : String) : Except String Crew :=
  match env.constructErr with
  | some e => Except.error e
  | none => Except.ok (create_research_crew env.os query).1

/-- The attribute access `result.raw` as it behaves inside `run_research`:
it may raise, otherwise it yields the raw final output. -/
def extract_raw (env : ResearchEnv) (result : CrewOutput) : Except String String :=
  match env.rawErr with
  | some e => Except.error e
  | none => Except.ok result.raw

/-- The body of the `try` block of `run_research` (src/agents.py lines
248-251): construct the crew, kick it off, extract `result.raw`; the
`Except.error` case is the exception that would propagate out of the
block. -/
def researchPipeline (env : ResearchEnv) (query : String) : Except String String :=
  match create_research_crew_e env query with
  | Except.error e => Except.error e
  | Except.ok crew =>
    match Crew.kickoff env.exec crew with
    | Except.error e => Except.error e
    | Except.ok result => extract_raw env result

/-- Translation of `run_research` (src/agents.py lines 238-253): the
`try/except Exception` wrapper around the pipeline, converting any raised
exception `e` into the string `"Error: " ++ str(e)`. -/
def run_research (env : ResearchEnv) (query : String) : String :=
  match researchPipeline env query with
  | Except.ok raw => raw
  | Except.error e => "Error: " ++ e

/-- The LinkUp client object (`linkup.LinkupClient`), holding the API key
it was constructed with. -/
structure LinkupClient where
  api_key : Option String

/-- The opaque response object the LinkUp provider returns; `text` stands
for its `str()` serialization payload. -/
structure SearchResponse where
  text : String
deriving DecidableEq

/-- The external LinkUp provider: construction of the client may raise
(`clientErr`), the `search` call may raise or return a response, and
`strOf` is Python's `str()` on the response object. -/
structure LinkupEnv where
  clientErr : Option String
  search : LinkupClient → String → String → String → Except String SearchResponse
  strOf : SearchResponse → String

/-- Translation of `LinkUpSearchTool._run` (src/agents.py lines 78-103).
Python defaults `depth="standard"`, `output_type="searchResults"` are
supplied by callers here.  The first component is the returned string; the
second is the list of environment variables read during the call
(`os.getenv("LINKUP_API_KEY")` is evaluated on every invocation, before
the client constructor can raise). -/
def LinkUpSearchTool_run (os : OsEnv) (le : LinkupEnv)
    (query depth output_type : String) : String × List String :=
  let key := os.getenv "LINKUP_API_KEY"
  let tryBody : Except String String :=
    match le.clientErr with
    | some e => Except.error e
    | none =>
      match le.search { api_key := key } query depth output_type with
      | Except.error e => Except.error e
      | Except.ok search_response => Except.ok (le.strOf search_response)
  (match tryBody with
   | Except.ok s => s
   | Except.error e => "Error occurred while searching: " ++ e,
   ["LINKUP_API_KEY"])

/-- Translation of `QueryRequest` (src/api.py lines 14-16). -/
structure QueryRequest where
  input : String
deriving DecidableEq

/-- The JSON bodies the API can answer with: `QueryResponse(result=...)`,
`StatusResponse(status=...)`, or the `detail` of an `HTTPException`. -/
inductive Body where
  | queryResult (result : String)
  | statusBody (status : String)
  | errorDetail (detail : String)
deriving DecidableEq

/-- An HTTP response: status code and body. -/
abbrev HttpResp := Nat × Body

/-- Translation of `query_endpoint` (src/api.py lines 26-36).  The Query
Service call is the parameter `rr`; a raised exception is its
`Except.error` case, converted by the handler into HTTP 500 with detail
`"Internal server error: " ++ str(e)`; a returned string becomes
`QueryResponse(result=...)` with FastAPI's default status 200. -/
def query_endpoint (rr : String → Except String String) (request : QueryRequest) : HttpResp :=
  match rr request.input with
  | Except.ok result => (200, Body.queryResult result)
  | Except.error e => (500, Body.errorDetail ("Internal server error: " ++ e))

/-- Translation of `status` (src/api.py lines 38-43): returns
`StatusResponse(status="ok")` with FastAPI's default status 200. -/
def status_endpoint : HttpResp := (200, Body.statusBody "ok")

/-- The two routes the FastAPI app exposes. -/
inductive Request where
  | query (request : QueryRequest)
  | statusCheck
deriving DecidableEq

/-- The app's dispatch: the `/query` route invokes the Query Service `rr`;
the `/status` route does not touch it. -/
def handle (rr : String → Except String String) : Request → HttpResp
  | Request.query req => query_endpoint rr req
  | Request.statusCheck => status_endpoint

/-- Numeric value of a decimal digit character. -/
def digitVal (c : Char) : Nat := c.toNat - 48

/-- Modelled from the spec: the scanner behind the citation-index notion —
"the bracketed numeral [n] in report text".  The second argument is the
scanner state: `none` outside a bracket; `some (acc, seen)` inside a
bracket after reading digit value `acc` (`seen` records that at least one
digit was read). -/
def citScan : List Char → Option (Nat × Bool) → List Nat
  | [], _ => []
  | c :: rest, none =>
    if c = '[' then citScan rest (some (0, false)) else citScan rest none
  | c :: rest, some st =>
    if c.isDigit then citScan rest (some (st.1 * 10 + digitVal c, true))
    else if c = ']' then
      if st.2 then st.1 :: citScan rest none else citScan rest none
    else if c = '[' then citScan rest (some (0, false))
    else citScan rest none

/-- Modelled from the spec: all citation indices `[n]` occurring in a
report text. -/
def citNums (s : String) : List Nat := citScan s.toList none

/-- Split a character list at newline characters. -/
def splitLinesAux : List Char → List Char → List (List Char)
  | [], cur => [cur.reverse]
  | c :: rest, cur =>
    if c = '\n' then cur.reverse :: splitLinesAux rest []
    else splitLinesAux rest (c :: cur)

/-- The lines of a string. -/
def splitLines (s : String) : List (List Char) := splitLinesAux s.toList []

/-- Whether `pat` occurs at the start of `cs`. -/
def startsWithCs : List Char → List Char → Bool
  | [], _ => true
  | _ :: _, [] => false
  | p :: ps, c :: cs => if p = c then startsWithCs ps cs else false

/-- Whether `pat` occurs anywhere in `cs`. -/
def containsCs (pat : List Char) : List Char → Bool
  | [] => startsWithCs pat []
  | c :: rest => startsWithCs pat (c :: rest) || containsCs pat rest

/-- Modelled from the spec: a line introducing the References section. -/
def lineIsRefHeader (l : List Char) : Bool := containsCs "References".toList l

/-- Modelled from the spec: an entry of the numbered References list — a
line that starts with a digit (its entry number). -/
def lineIsRefEntry (l : List Char) : Bool :=
  match l with
  | c :: _ => c.isDigit
  | [] => false

/-- Modelled from the spec: the number N of entries of the References
section — the numbered lines following the References header. -/
def refEntryCount (s : String) : Nat :=
  ((((splitLines s).dropWhile (fun l => !lineIsRefHeader l)).drop 1).filter lineIsRefEntry).length

/-- Modelled from the spec: "every citation index occurring in the report
resolves to an existing numbered entry of the References section (no
dangling citation numbers)". -/
def noDanglingCitations (s : String) : Bool :=
  (citNums s).all (fun n => decide (1 ≤ n) && decide (n ≤ refEntryCount s))

/-- A process environment with no variables set, used in witnesses. -/
def osW : OsEnv := ⟨fun _ => none⟩

/-- An execution oracle on which every task succeeds with output
`"report"`, used in witnesses. -/
def execW : TaskExec := fun _ _ => Except.ok "report"

/-- A fully successful research environment, used in witnesses. -/
def envW : ResearchEnv := ⟨osW, none, execW, none⟩

/-- A writer output whose Key Findings cite source [2] while the
References section has a single entry: citation [2] is dangling. -/
def badReport : String :=
  "## Key Findings\nA finding [2].\n## References\n1. Source One\n"

/-- An execution oracle on which every task succeeds and the final task
outputs `badReport`, used for the citation-enforcement claim. -/
def execBad : TaskExec := fun _ _ => Except.ok badReport

/-- A research environment whose pipeline succeeds with `badReport` as the
final report. -/
def envBad : ResearchEnv := ⟨osW, none, execBad, none⟩

/-- A LinkUp provider whose search always succeeds, used in witnesses. -/
def leW : LinkupEnv :=
  ⟨none, fun _ _ _ _ => Except.ok ⟨"results"⟩, fun r => r.text⟩

/-- A LinkUp provider whose client constructor raises `"boom"`, used in
witnesses. -/
def leErr : LinkupEnv :=
  ⟨some "boom", fun _ _ _ _ => Except.error "net down", fun r => r.text⟩

/-- A LinkUp provider whose client constructs but whose search call raises
`"net down"`, used in witnesses. -/
def leSearchErr : LinkupEnv :=
  ⟨none, fun _ _ _ _ => Except.error "net down", fun r => r.text⟩

/-- Helper: a sequential run of three tasks whose contexts form the strict
chain `[] / [0] / [1]` succeeds exactly when each task's executor call
succeeds in order, each receiving the previous task's output as context. -/
theorem runTasks_three (exec : TaskExec) (t1 t2 t3 : Task)
    (h1 : t1.context = []) (h2 : t2.context = [0]) (h3 : t3.context = [1])
    (l : List String)
    (h : runTasks exec [t1, t2, t3] [] = Except.ok l) :
    ∃ o1 o2 o3, exec t1 [] = Except.ok o1 ∧ exec t2 [o1] = Except.ok o2 ∧
      exec t3 [o2] = Except.ok o3 ∧ l = [o1, o2, o3] := by
  cases he1 : exec t1 [] with
  | error e =>
    have hx : runTasks exec [t1, t2, t3] [] = Except.error e := by
      simp [runTasks, resolveCtx, h1, he1]
    rw [hx] at h
    exact absurd h (by simp)
  | ok o1 =>
    cases he2 : exec t2 [o1] with
    | error e =>
      have hx : runTasks exec [t1, t2, t3] [] = Except.error e := by
        simp [runTasks, resolveCtx, h1, h2, he1, he2]
      rw [hx] at h
      exact absurd h (by simp)
    | ok o2 =>
      cases he3 : exec t3 [o2] with
      | error e =>
        have hx : runTasks exec [t1, t2, t3] [] = Except.error e := by
          simp [runTasks, resolveCtx, h1, h2, h3, he1, he2, he3]
        rw [hx] at h
        exact absurd h (by simp)
      | ok o3 =>
        have hx : runTasks exec [t1, t2, t3] [] = Except.ok [o1, o2, o3] := by
          simp [runTasks, resolveCtx, h1, h2, h3, he1, he2, he3]
        rw [hx] at h
        injection h with h'
        exact ⟨o1, o2, o3, rfl, he2, he3, h'.symm⟩

/-- C3: for every query the crew is a sequential-process crew whose task
context graph is the strict linear chain SEARCH → ANALYZE → WRITE (the
analysis task depends only on the search task, the writing task only on
the analysis task), and every successful kickoff executes the three tasks
strictly in that order: the analysis task only runs with the search task's
completed output as its context, the writing task only with the analysis
task's completed output, and the result's raw text is the writing task's
output. -/
theorem task_chain_strict_order (os : OsEnv) (query : String)
    (exec : TaskExec) (out : CrewOutput)
    (h : Crew.kickoff exec (create_research_crew os query).1 = Except.ok out) :
    (create_research_crew os query).1.process = Process.sequential ∧
    ∃ t1 t2 t3, (create_research_crew os query).1.tasks = [t1, t2, t3] ∧
      t1.context = [] ∧ t2.context = [0] ∧ t3.context = [1] ∧
      ∃ o1 o2 o3, exec t1 [] = Except.ok o1 ∧ exec t2 [o1] = Except.ok o2 ∧
        exec t3 [o2] = Except.ok o3 ∧ out.raw = o3 ∧
        out.tasks_output = [o1, o2, o3] := by
  refine ⟨rfl, _, _, _, rfl, rfl, rfl, rfl, ?_⟩
  unfold Crew.kickoff at h
  cases hrt : runTasks exec (create_research_crew os query).1.tasks [] with
  | error e =>
    rw [hrt] at h
    have h' : (Except.error e : Except String CrewOutput) = Except.ok out := h
    exact absurd h' (by simp)
  | ok outs =>
    rw [hrt] at h
    obtain ⟨o1, o2, o3, he1, he2, he3, rfl⟩ :=
      runTasks_three exec _ _ _ rfl rfl rfl outs hrt
    have h' : Except.ok (CrewOutput.mk o3 [o1, o2, o3]) = Except.ok out := h
    cases h'
    exact ⟨o1, o2, o3, he1, he2, he3, rfl, rfl⟩

/-- Witness for C3: a concrete environment in which every task outputs
`"report"`; the kickoff hypothesis is discharged by evaluation. -/
theorem task_chain_strict_order_witness :
    (create_research_crew osW "q").1.process = Process.sequential ∧
    ∃ t1 t2 t3, (create_research_crew osW "q").1.tasks = [t1, t2, t3] ∧
      t1.context = [] ∧ t2.context = [0] ∧ t3.context = [1] ∧
      ∃ o1 o2 o3, execW t1 [] = Except.ok o1 ∧ execW t2 [o1] = Except.ok o2 ∧
        execW t3 [o2] = Except.ok o3 ∧
        (CrewOutput.mk "report" ["report", "report", "report"]).raw = o3 ∧
        (CrewOutput.mk "report" ["report", "report", "report"]).tasks_output = [o1, o2, o3] :=
  task_chain_strict_order osW "q" execW ⟨"report", ["report", "report", "report"]⟩ rfl

/-- C1: for every environment (including forced failure at crew
construction, at any of the three task executions, or at result
extraction) and every query string (including the empty string),
`run_research` returns a string that is either `"Error: "` followed by the
raised exception's message, or — when the whole pipeline succeeds — the
raw output of the crew kickoff, i.e. the final task's report text. -/
theorem run_research_never_raises (env : ResearchEnv) (query : String) :
    (∃ e, researchPipeline env query = Except.error e ∧
      run_research env query = "Error: " ++ e) ∨
    (∃ crew out, create_research_crew_e env query = Except.ok crew ∧
      Crew.kickoff env.exec crew = Except.ok out ∧
      run_research env query = out.raw) := by
  cases hc : create_research_crew_e env query with
  | error e =>
    exact Or.inl ⟨e, by simp [researchPipeline, hc],
      by simp [run_research, researchPipeline, hc]⟩
  | ok crew =>
    cases hk : Crew.kickoff env.exec crew with
    | error e =>
      exact Or.inl ⟨e, by simp [researchPipeline, hc, hk],
        by simp [run_research, researchPipeline, hc, hk]⟩
    | ok out =>
      cases hr : env.rawErr with
      | some e =>
        exact Or.inl ⟨e, by simp [researchPipeline, hc, hk, extract_raw, hr],
          by simp [run_research, researchPipeline, hc, hk, extract_raw, hr]⟩
      | none =>
        exact Or.inr ⟨crew, out, rfl, hk,
          by simp [run_research, researchPipeline, hc, hk, extract_raw, hr]⟩

/-- C2: for every process environment, provider behaviour and arguments,
`LinkUpSearchTool._run` either succeeds — the provider's search call
returned a response and the result is that response serialized to text —
or returns a descriptive error string carrying the raised exception's
message; being a total function it never propagates an exception. -/
theorem linkup_search_fail_soft (os : OsEnv) (le : LinkupEnv)
    (query depth output_type : String) :
    (∃ resp, le.clientErr = none ∧
      le.search { api_key := os.getenv "LINKUP_API_KEY" } query depth output_type =
        Except.ok resp ∧
      (LinkUpSearchTool_run os le query depth output_type).1 = le.strOf resp) ∨
    (∃ e, (LinkUpSearchTool_run os le query depth output_type).1 =
      "Error occurred while searching: " ++ e) := by
  cases hc : le.clientErr with
  | some e => exact Or.inr ⟨e, by simp [LinkUpSearchTool_run, hc]⟩
  | none =>
    cases hs : le.search { api_key := os.getenv "LINKUP_API_KEY" } query depth output_type with
    | error e => exact Or.inr ⟨e, by simp [LinkUpSearchTool_run, hc, hs]⟩
    | ok resp => exact Or.inl ⟨resp, rfl, rfl, by simp [LinkUpSearchTool_run, hc, hs]⟩

/-- C10: whenever an exception is caught inside `LinkUpSearchTool._run` —
whether raised by the client constructor or by the search call — the
string returned to the calling agent is exactly the fixed prefix
`"Error occurred while searching: "` followed by the exception's
message. -/
theorem linkup_error_message_shape (os : OsEnv) (le : LinkupEnv)
    (query depth output_type : String) :
    (∀ e, le.clientErr = some e →
      (LinkUpSearchTool_run os le query depth output_type).1 =
        "Error occurred while searching: " ++ e) ∧
    (∀ e, le.clientErr = none →
      le.search { api_key := os.getenv "LINKUP_API_KEY" } query depth output_type =
        Except.error e →
      (LinkUpSearchTool_run os le query depth output_type).1 =
        "Error occurred while searching: " ++ e) := by
  constructor
  · intro e hc
    simp [LinkUpSearchTool_run, hc]
  · intro e hc hs
    simp [LinkUpSearchTool_run, hc, hs]

/-- Witness for C10: concrete failing providers — a client constructor
raising `"boom"` and a search call raising `"net down"`. -/
theorem linkup_error_message_shape_witness :
    (LinkUpSearchTool_run osW leErr "q" "standard" "searchResults").1 =
      "Error occurred while searching: " ++ "boom" ∧
    (LinkUpSearchTool_run osW leSearchErr "q" "standard" "searchResults").1 =
      "Error occurred while searching: " ++ "net down" :=
  ⟨(linkup_error_message_shape osW leErr "q" "standard" "searchResults").1 "boom" rfl,
   (linkup_error_message_shape osW leSearchErr "q" "standard" "searchResults").2
     "net down" rfl rfl⟩

/-- C4 (amended): the model identifier and temperature are fixed literals,
but the API keys are not read once at process start: `GEMINI_API_KEY` is
read from the environment on every crew construction (hence during every
query), flowing into each agent's LLM configuration, and `LINKUP_API_KEY`
is read on every individual search-tool invocation. -/
theorem config_env_reads_per_call (os : OsEnv) (query : String)
    (le : LinkupEnv) (q d t : String) :
    (create_research_crew os query).2 = ["GEMINI_API_KEY"] ∧
    (LinkUpSearchTool_run os le q d t).2 = ["LINKUP_API_KEY"] ∧
    (create_research_crew os query).1.agents.map (fun a => (a.llm.model, a.llm.temperature)) =
      [("gemini/gemini-2.5-flash", (0 : ℚ)), ("gemini/gemini-2.5-flash", 0),
       ("gemini/gemini-2.5-flash", 0)] ∧
    (create_research_crew os query).1.agents.map (fun a => a.llm.api_key) =
      [os.getenv "GEMINI_API_KEY", os.getenv "GEMINI_API_KEY", os.getenv "GEMINI_API_KEY"] :=
  ⟨rfl, rfl, rfl, rfl⟩

/-- Counterexample to C4 as stated: the lists of environment variables
read during a single crew construction (part of query handling) and
during a single search-tool invocation are not empty. -/
theorem config_read_once_counterexample :
    (create_research_crew osW "q").2 ≠ [] ∧
    (LinkUpSearchTool_run osW leW "q" "standard" "searchResults").2 ≠ [] :=
  ⟨by decide, by decide⟩

/-- C6: for every query, the three constructed agents have exactly the
fixed role configuration: the Web Searcher has tool set consisting of the
search tool adapter and delegation allowed, the Research Analyst has an
empty tool set and delegation allowed, and the Technical Writer has
delegation not allowed. -/
theorem agent_role_config (os : OsEnv) (query : String) :
    (create_research_crew os query).1.agents.map
        (fun a => (a.role, a.tools, a.allow_delegation)) =
      [("Web Searcher", [Tool.linkupSearch], true),
       ("Research Analyst", ([] : List Tool), true),
       ("Technical Writer", ([] : List Tool), false)] := rfl

/-- C7: the query text is interpolated into the description of the first
(search) task and only there — the agents, the remaining task
descriptions and every other task field are independent of the query —
and on the success path `run_research` returns exactly the raw output of
the kickoff result, i.e. the final (writing) task's raw text output. -/
theorem query_interpolation_and_final_output (os : OsEnv) (query : String) :
    (∃ t1, ((create_research_crew os query).1.tasks)[0]? = some t1 ∧
      t1.description =
        "Conduct an exhaustive web search for authoritative, up-to-date information about: "
        ++ query ++
        ". Collect facts, data, and potential visuals (charts, diagrams, images) relevant to the research query. "
        ++ "Ensure all findings are accompanied by accurate source links (urls) suitable for citation in a formal research report.") ∧
    (∀ q' : String,
      (create_research_crew os q').1.agents = (create_research_crew os query).1.agents ∧
      ((create_research_crew os q').1.tasks.map Task.description).drop 1 =
        ((create_research_crew os query).1.tasks.map Task.description).drop 1 ∧
      (create_research_crew os q').1.tasks.map
          (fun t => (t.agent, t.expected_output, t.context, t.tools)) =
        (create_research_crew os query).1.tasks.map
          (fun t => (t.agent, t.expected_output, t.context, t.tools))) ∧
    (∀ env : ResearchEnv, ∀ out : CrewOutput,
      env.constructErr = none → env.rawErr = none →
      Crew.kickoff env.exec (create_research_crew env.os query).1 = Except.ok out →
      run_research env query = out.raw) := by
  refine ⟨⟨_, rfl, rfl⟩, fun q' => ⟨rfl, rfl, rfl⟩, ?_⟩
  intro env out h1 h2 hk
  simp [run_research, researchPipeline, create_research_crew_e, h1, hk, extract_raw, h2]

/-- Witness for C7: in a concrete all-success environment the returned
string is the kickoff result's raw output. -/
theorem query_interpolation_and_final_output_witness :
    run_research envW "hello" =
      (CrewOutput.mk "report" ["report", "report", "report"]).raw :=
  (query_interpolation_and_final_output osW "hello").2.2 envW
    ⟨"report", ["report", "report", "report"]⟩ rfl rfl rfl

/-- C5 (amended): the citation-to-reference correspondence is only a
prompt instruction to the Technical Writer; the program performs no
structural validation of the final report — even when the writer output
contains a dangling citation index, `run_research` returns it verbatim. -/
theorem writer_output_not_validated (env : ResearchEnv) (query : String) (out : CrewOutput)
    (h1 : env.constructErr = none) (h2 : env.rawErr = none)
    (hk : Crew.kickoff env.exec (create_research_crew env.os query).1 = Except.ok out)
    (_hd : noDanglingCitations out.raw = false) :
    run_research env query = out.raw := by
  simp [run_research, researchPipeline, create_research_crew_e, h1, hk, extract_raw, h2]

/-- Witness for C5 (amended): the concrete dangling-citation report
`badReport` is returned verbatim. -/
theorem writer_output_not_validated_witness :
    run_research envBad "q" =
      (CrewOutput.mk badReport [badReport, badReport, badReport]).raw :=
  writer_output_not_validated envBad "q" ⟨badReport, [badReport, badReport, badReport]⟩
    rfl rfl rfl (by decide)

/-- Counterexample to C5 as stated: a concrete run of the program whose
final report contains the citation `[2]` while its References section has
a single entry — the dangling citation reaches the caller, so the program
does not enforce the structural property. -/
theorem dangling_citation_counterexample :
    run_research envBad "q" = badReport ∧
    noDanglingCitations (run_research envBad "q") = false :=
  ⟨rfl, by decide⟩

/-- C8: the `/status` route answers `{status = "ok"}` with HTTP 200 for
every request, independent of the Query Service implementation `rr` and
of any pipeline state. -/
theorem status_always_ok (rr : String → Except String String) :
    handle rr Request.statusCheck = (200, Body.statusBody "ok") := rfl

/-- C9: under the precondition that the Query Service returns a string on
every input and never raises, the HTTP-500 branch of the `/query` handler
is unreachable: every request with a string input field is answered with
status 200 and the success shape carrying exactly the returned string —
even when that string is an `"Error: "`-prefixed failure message. -/
theorem query_endpoint_success_shape (rr : String → Except String String) (input : String)
    (h : ∀ q, ∃ s, rr q = Except.ok s) :
    ∃ s, rr input = Except.ok s ∧
      handle rr (Request.query ⟨input⟩) = (200, Body.queryResult s) := by
  obtain ⟨s, hs⟩ := h input
  exact ⟨s, hs, by simp [handle, query_endpoint, hs]⟩

/-- Witness for C9: the actual `run_research`, lifted to the handler's
fallible interface by always returning, satisfies the precondition; the
endpoint answers 200 with its result. -/
theorem query_endpoint_success_shape_witness :
    ∃ s, (fun q => Except.ok (run_research envW q) : String → Except String String) "hello" =
        Except.ok s ∧
      handle (fun q => Except.ok (run_research envW q)) (Request.query ⟨"hello"⟩) =
        (200, Body.queryResult s) :=
  query_endpoint_success_shape (fun q => Except.ok (run_research envW q)) "hello"
    (fun q => ⟨run_research envW q, rfl⟩)

end DeepSearch
